import Mathlib

/-!
Shallow embedding of the VibeRiders endless-runner core
(`src/three/objects/HoverBoard.ts`, `src/three/objects/Obstacle.ts`,
`src/three/objects/Crystal.ts`, `src/three/scenes/CyberpunkScene.ts`,
`src/three/store/gameStore.ts`).  Positions, speeds and times are
modelled as rationals; JavaScript `Math.floor` on a rational becomes
`Int.floor`.
-/

namespace VibeRiders

/-- `GameState` from `gameStore.ts`: `'idle' | 'playing' | 'gameOver'`. -/
inductive GameState
  | idle
  | playing
  | gameOver
deriving DecidableEq, Repr

/-- Lane lateral offsets, `lanes = [-laneWidth, 0, laneWidth]` with
`laneWidth = 2.5`, shared by `HoverBoard`, `Obstacle` and `Crystal`. -/
def lanesQ (i : ℕ) : ℚ :=
  if i = 0 then -(5 / 2) else if i = 1 then 0 else 5 / 2

/-- `HoverBoard.moveCooldownDuration = 0.2` seconds. -/
def moveCooldownDuration : ℚ := 1 / 5

/-- `HoverBoard.lateralSpeed = 12`. -/
def lateralSpeed : ℚ := 12

/-- The simulation-relevant state of `HoverBoard`
(`position.{x,z}`, `targetPosition.x`, `speed`, `isMoving`,
`currentLane`, `moveCooldown`). -/
structure HoverBoard where
  posX : ℚ
  posZ : ℚ
  targetX : ℚ
  speed : ℚ
  isMoving : Bool
  currentLane : ℕ
  moveCooldown : ℚ
deriving DecidableEq, Repr

namespace HoverBoard

/-- Field initialisers in the `HoverBoard` class body. -/
def init : HoverBoard :=
  { posX := 0, posZ := 5, targetX := 0, speed := 0,
    isMoving := false, currentLane := 1, moveCooldown := 0 }

/-- `HoverBoard.startMoving()`. -/
def startMoving (b : HoverBoard) : HoverBoard :=
  { b with isMoving := true, speed := 12, currentLane := 1,
           targetX := lanesQ 1, posX := lanesQ 1, posZ := 5,
           moveCooldown := 0 }

/-- `HoverBoard.stopMoving()`. -/
def stopMoving (b : HoverBoard) : HoverBoard :=
  { b with isMoving := false, speed := 0 }

/-- `HoverBoard.moveLeft()`: rejected unless moving, lane above 0 and
cooldown expired. -/
def moveLeft (b : HoverBoard) : HoverBoard :=
  if b.isMoving = false ∨ b.currentLane = 0 ∨ b.moveCooldown > 0 then b
  else
    { b with currentLane := b.currentLane - 1,
             targetX := lanesQ (b.currentLane - 1),
             moveCooldown := moveCooldownDuration }

/-- `HoverBoard.moveRight()`: rejected unless moving, lane below 2 and
cooldown expired. -/
def moveRight (b : HoverBoard) : HoverBoard :=
  if b.isMoving = false ∨ b.currentLane = 2 ∨ b.moveCooldown > 0 then b
  else
    { b with currentLane := b.currentLane + 1,
             targetX := lanesQ (b.currentLane + 1),
             moveCooldown := moveCooldownDuration }

/-- `HoverBoard.getDistance()`: `if (!this.isMoving) return 0;
return Math.abs(this.position.z - 5);`. -/
def getDistance (b : HoverBoard) : ℚ :=
  if b.isMoving = false then 0 else |b.posZ - 5|

/-- `HoverBoard.setSpeed(speed)`. -/
def setSpeed (b : HoverBoard) (v : ℚ) : HoverBoard :=
  { b with speed := v }

/-- `Math.sign` for rationals. -/
def signQ (q : ℚ) : ℚ := if q > 0 then 1 else if q < 0 then -1 else 0

/-- First block of `HoverBoard.update`: decrement the cooldown when it
is still positive. -/
def updateCooldown (b : HoverBoard) (dt : ℚ) : HoverBoard :=
  if b.moveCooldown > 0 then { b with moveCooldown := b.moveCooldown - dt }
  else b

/-- Forward-motion block of `HoverBoard.update`:
`if (this.isMoving) this.position.z -= this.speed * deltaTime`. -/
def updateForward (b : HoverBoard) (dt : ℚ) : HoverBoard :=
  if b.isMoving = true then { b with posZ := b.posZ - b.speed * dt } else b

/-- Lateral-convergence block of `HoverBoard.update`: step `position.x`
toward `targetPosition.x` by at most `lateralSpeed * deltaTime`. -/
def updateLateral (b : HoverBoard) (dt : ℚ) : HoverBoard :=
  let diff := b.targetX - b.posX
  if |diff| > 1 / 100
  then { b with posX := b.posX + signQ diff * min (lateralSpeed * dt) |diff| }
  else b

/-- `HoverBoard.update(deltaTime)`, restricted to the simulation state
(cooldown decrement, forward motion, lateral convergence, in source
order); the shader, glow and mesh-cosmetic updates touch none of the
modelled fields. -/
def update (b : HoverBoard) (dt : ℚ) : HoverBoard :=
  updateLateral (updateForward (updateCooldown b dt) dt) dt

/-- `HoverBoard.reset()`. -/
def reset (b : HoverBoard) : HoverBoard :=
  { b with isMoving := false, speed := 0, currentLane := 1,
           posX := lanesQ 1, posZ := 5, targetX := lanesQ 1,
           moveCooldown := 0 }

end HoverBoard

/-- A three.js `Box3`: an axis-aligned box given by its min/max corners. -/
structure Box3 where
  minX : ℚ
  minY : ℚ
  minZ : ℚ
  maxX : ℚ
  maxY : ℚ
  maxZ : ℚ
deriving DecidableEq, Repr

/-- `Box3.intersectsBox`: boxes intersect unless they are separated on
some axis (`box.max.x < this.min.x || box.min.x > this.max.x || ...`). -/
def Box3.intersects (a b : Box3) : Bool :=
  ¬(b.maxX < a.minX ∨ b.minX > a.maxX ∨ b.maxY < a.minY ∨ b.minY > a.maxY
      ∨ b.maxZ < a.minZ ∨ b.minZ > a.maxZ)

/-- `ObstacleType` from `Obstacle.ts`. -/
inductive ObstacleType
  | WALL
  | DOUBLE_WALL
deriving DecidableEq, Repr

/-- An obstacle as the `CyberpunkScene` sees it: its lane, forward
position `position.z`, active flag and bounding box. -/
structure SceneObstacle where
  lane : ℕ
  z : ℚ
  active : Bool
  box : Box3
deriving DecidableEq, Repr

/-- A crystal as the `CyberpunkScene` sees it. -/
structure SceneCrystal where
  lane : ℕ
  z : ℚ
  active : Bool
deriving DecidableEq, Repr

/-- `Obstacle.isPastPlayer()`: `position.z > 10`. -/
def SceneObstacle.isPastPlayer (o : SceneObstacle) : Bool := o.z > 10

/-! ## Object pools (`initializeObstaclePool` / `initializeCrystalPool`,
`getObstacleFromPool` / `getCrystalFromPool`) -/

/-- `initializeObstaclePool`: `poolSize = 15`. -/
def obstaclePoolSize : ℕ := 15

/-- `initializeCrystalPool`: `poolSize = 8`. -/
def crystalPoolSize : ℕ := 8

/-- The obstacle pool right after `initializeObstaclePool`: 15 slots at
`z = -200`, all inactive. -/
def initObstaclePool : List SceneObstacle :=
  List.replicate obstaclePoolSize
    { lane := 1, z := -200, active := false,
      box := ⟨0, 0, 0, 0, 0, 0⟩ }

/-- The crystal pool right after `initializeCrystalPool`: 8 slots at
`z = -200`, all inactive. -/
def initCrystalPool : List SceneCrystal :=
  List.replicate crystalPoolSize { lane := 1, z := -200, active := false }

/-- `getObstacleFromPool`: index of the first inactive slot, `none` when
the pool is exhausted. -/
def getObstacleFromPool (pool : List SceneObstacle) : Option ℕ :=
  pool.findIdx? (fun o => o.active = false)

/-- `getCrystalFromPool`: index of the first inactive slot, `none` when
the pool is exhausted. -/
def getCrystalFromPool (pool : List SceneCrystal) : Option ℕ :=
  pool.findIdx? (fun c => c.active = false)

/-- One pool-affecting operation on the obstacle pool during a tick:
a spawn (`spawnObstacle`, which acquires the first inactive slot and
`reset`s it to active, or silently skips on exhaustion) or a retirement
(`setActive(false)` on slot `i`). -/
inductive PoolOp
  | spawn (lane : ℕ) (z : ℚ)
  | release (i : ℕ)
deriving DecidableEq, Repr

/-- Effect of a `PoolOp` on the obstacle pool. -/
def applyPoolOp (pool : List SceneObstacle) : PoolOp → List SceneObstacle
  | .spawn lane z =>
      match getObstacleFromPool pool with
      | none => pool
      | some i =>
          pool.set i { lane := lane, z := z, active := true,
                       box := ⟨0, 0, 0, 0, 0, 0⟩ }
  | .release i =>
      match pool.get? i with
      | none => pool
      | some o => pool.set i { o with active := false }

/-- A sequence of spawn/release operations applied in order. -/
def applyPoolOps (ops : List PoolOp) (pool : List SceneObstacle) :
    List SceneObstacle :=
  ops.foldl applyPoolOp pool

/-- Effect of a `PoolOp` on the crystal pool. -/
def applyCrystalPoolOp (pool : List SceneCrystal) : PoolOp → List SceneCrystal
  | .spawn lane z =>
      match getCrystalFromPool pool with
      | none => pool
      | some i => pool.set i { lane := lane, z := z, active := true }
  | .release i =>
      match pool.get? i with
      | none => pool
      | some c => pool.set i { c with active := false }

/-- A sequence of spawn/release operations on the crystal pool. -/
def applyCrystalPoolOps (ops : List PoolOp) (pool : List SceneCrystal) :
    List SceneCrystal :=
  ops.foldl applyCrystalPoolOp pool

/-- Number of active slots in the obstacle pool. -/
def countActiveObstacles (pool : List SceneObstacle) : ℕ :=
  pool.countP (fun o => o.active = true)

/-- Number of active slots in the crystal pool. -/
def countActiveCrystals (pool : List SceneCrystal) : ℕ :=
  pool.countP (fun c => c.active = true)

/-! ## Obstacle spawning (`spawnObstacle`) -/

/-- The `tooClose` test in `spawnObstacle`, per candidate lane: some
active obstacle occupies `lane` with `-140 < z < -80`. -/
def tooCloseObstacle (obstacles : List SceneObstacle) (lane : ℕ) : Bool :=
  obstacles.any (fun o => o.lane = lane ∧ o.z < -80 ∧ o.z > -140)

/-- The lane finally used by `spawnObstacle`: the uniformly random pick
`lane0 ∈ {0,1,2}`, shifted cyclically by `1 + shift` (with random
`shift ∈ {0,1}`) when `lane0` is too close to an existing obstacle.
The shifted lane is not re-checked. -/
def chooseObstacleLane (obstacles : List SceneObstacle) (lane0 shift : ℕ) : ℕ :=
  if tooCloseObstacle obstacles lane0 then (lane0 + 1 + shift) % 3 else lane0

/-- `spawnObstacle` always resets the acquired slot to `startZ = -140`. -/
def obstacleSpawnZ : ℚ := -140

/-! ## Crystal spawning (`spawnCrystal` / `spawnCrystalPattern`) -/

/-- JavaScript `%` on integers (truncated remainder). -/
def jsMod (a : ℤ) (b : ℤ) : ℤ := Int.tmod a b

/-- The lane wrap in `spawnCrystalPattern`:
`let lane = (baseLane + point.laneOffset) % 3; if (lane < 0) lane += 3;`. -/
def wrapLane (l : ℤ) : ℕ :=
  (if jsMod l 3 < 0 then jsMod l 3 + 3 else jsMod l 3).toNat

/-- Crystal spacing constant in `spawnCrystal`: `spacing = 8`. -/
def crystalSpacing : ℚ := 8

/-- The three crystal patterns of `spawnCrystal` as
`(laneOffset, zOffset)` lists: straight line, zigzag, diagonal. -/
def crystalPattern (patternType : ℕ) : List (ℤ × ℚ) :=
  if patternType = 0 then
    [(0, 0), (0, crystalSpacing), (0, crystalSpacing * 2)]
  else if patternType = 1 then
    [(0, 0), (1, crystalSpacing * (7 / 10)), (0, crystalSpacing * (14 / 10)),
     (-1, crystalSpacing * (21 / 10)), (0, crystalSpacing * (28 / 10))]
  else
    [(0, 0), (1, crystalSpacing), (2, crystalSpacing * 2)]

/-- `spawnCrystal` uses `startZ = -130` as the base forward position. -/
def crystalSpawnZ : ℚ := -130

/-- One iteration of the `pattern.forEach` body in `spawnCrystalPattern`:
acquire a pooled crystal (skip the point when the pool is exhausted),
wrap the lane, place the crystal at `baseZ - zOffset`, append it to the
active list.  No lane-spacing check of any kind is performed. -/
def spawnCrystalPoint (baseLane : ℕ) (baseZ : ℚ) (pt : ℤ × ℚ)
    (st : List SceneCrystal × List SceneCrystal) :
    List SceneCrystal × List SceneCrystal :=
  match getCrystalFromPool st.1 with
  | none => st
  | some i =>
      let c : SceneCrystal :=
        { lane := wrapLane ((baseLane : ℤ) + pt.1),
          z := baseZ - pt.2, active := true }
      (st.1.set i c, st.2 ++ [c])

/-- `spawnCrystalPattern(baseLane, baseZ, pattern)` acting on the
crystal pool and the active-crystal list. -/
def spawnCrystalPattern (baseLane : ℕ) (baseZ : ℚ)
    (pattern : List (ℤ × ℚ)) (st : List SceneCrystal × List SceneCrystal) :
    List SceneCrystal × List SceneCrystal :=
  pattern.foldl (fun s pt => spawnCrystalPoint baseLane baseZ pt s) st

/-- `spawnCrystal` for a chosen random `patternType` and `startLane`. -/
def spawnCrystal (patternType startLane : ℕ)
    (st : List SceneCrystal × List SceneCrystal) :
    List SceneCrystal × List SceneCrystal :=
  spawnCrystalPattern startLane crystalSpawnZ (crystalPattern patternType) st

/-! ## Collision engine (`checkCollisions`, `handleObstacleCollision`) -/

/-- Collision-relevant scene flags mutated by `handleObstacleCollision`. -/
structure SceneFlags where
  gameState : GameState
  obstacleSpawningActive : Bool
  crystalSpawningActive : Bool
deriving DecidableEq, Repr

/-- `handleObstacleCollision`: set the session to `gameOver` and stop
both spawners (the explosion sound and particles are cosmetic). -/
def handleObstacleCollision (s : SceneFlags) : SceneFlags :=
  { s with gameState := .gameOver,
           obstacleSpawningActive := false,
           crystalSpawningActive := false }

/-- The collision-window filter on obstacles:
`obstacleZ > -5 && obstacleZ < 8`. -/
def inCollisionWindow (z : ℚ) : Bool := z > -5 ∧ z < 8

/-- The obstacle loop of `checkCollisions`: walk the window-filtered
obstacles, and at the first active obstacle whose box intersects the
hoverboard's, run `handleObstacleCollision` and `break`.  The second
component counts how many times the handler ran this tick. -/
def checkObstacleLoop (s : SceneFlags) (playerBox : Box3) :
    List SceneObstacle → SceneFlags × ℕ
  | [] => (s, 0)
  | o :: rest =>
      if o.active = true ∧ playerBox.intersects o.box = true then
        (handleObstacleCollision s, 1)
      else checkObstacleLoop s playerBox rest

/-- The obstacle half of `checkCollisions`: an early return when the
session is not `playing`, else the filtered loop. -/
def checkCollisionsObstacles (s : SceneFlags) (playerBox : Box3)
    (obstacles : List SceneObstacle) : SceneFlags × ℕ :=
  if s.gameState ≠ .playing then (s, 0)
  else checkObstacleLoop s playerBox
        (obstacles.filter (fun o => inCollisionWindow o.z))

/-! ## Scoring and the store (`gameStore.ts`, `updateObstacles`) -/

/-- The retirement pass at the end of `updateObstacles`: every obstacle
with `isPastPlayer()` is removed from the active list, deactivated, and
adds `+10` to `scoreAtom`. -/
def retireObstacles : List SceneObstacle → ℤ → List SceneObstacle × ℤ
  | [], s => ([], s)
  | o :: rest, s =>
      let p := retireObstacles rest s
      if o.isPastPlayer = true then (p.1, p.2 + 10) else (o :: p.1, p.2)

/-- The reactive store of `gameStore.ts` (the atoms read and written by
the simulation). -/
structure Store where
  gameState : GameState
  distance : ℚ
  score : ℤ
  highScore : ℤ
  speed : ℚ
  crystalCount : ℕ
deriving DecidableEq, Repr

/-- `finalScoreAtom`:
`Math.floor(distance) + score + crystals * 50`. -/
def finalScore (st : Store) : ℤ :=
  ⌊st.distance⌋ + st.score + (st.crystalCount : ℤ) * 50

/-- `updateHighScore(newScore)`: overwrite the stored high score only
when `newScore > currentHighScore` (the `localStorage` write is an
external side effect). -/
def updateHighScore (st : Store) (newScore : ℤ) : Store :=
  if newScore > st.highScore then { st with highScore := newScore } else st

/-- `restartGame()`: reset `gameState`, `distance`, `score` and
`crystalCount`; it performs no high-score comparison. -/
def restartGame (st : Store) : Store :=
  { st with gameState := .idle, distance := 0, score := 0,
            crystalCount := 0 }

/-- The store helper `gameOver()`: compare the final score against the
high score, then enter `gameOver`.  (Unused by the wired game: the
scene's `handleObstacleCollision` sets the atom directly.) -/
def gameOverHelper (st : Store) : Store :=
  { updateHighScore st (finalScore st) with gameState := .gameOver }

/-- The store helper `resetGame()`: compare the final score against the
high score, then reset.  (Unused by the wired game: the restart button
calls `restartGame`.) -/
def resetGameHelper (st : Store) : Store :=
  { updateHighScore st (finalScore st) with
      gameState := .idle, distance := 0, score := 0, speed := 5,
      crystalCount := 0 }

/-- `handleCrystalCollection`: increment `crystalCountAtom` by one
(sound and particles are cosmetic; deactivation is modelled on the
pool side). -/
def handleCrystalCollection (st : Store) : Store :=
  { st with crystalCount := st.crystalCount + 1 }

/-! ## The `Obstacle` object (`Obstacle.ts`): double-wall geometry -/

/-- The internal state of an `Obstacle` instance relevant to wall
placement: its lane, type, group x-position, and the x-offsets of its
wall children relative to the group. -/
structure ObstacleObj where
  lane : ℕ
  otype : ObstacleType
  meshX : ℚ
  wallRelX : List ℚ
  z : ℚ
  active : Bool
deriving DecidableEq, Repr

/-- The two lanes blocked by `createDoubleWallObstacle`, as chosen from
`this.lane`. -/
def blockedLanes (lane : ℕ) : List ℕ :=
  if lane = 0 then [1, 2] else if lane = 1 then [0, 2] else [0, 1]

/-- The wall x-positions built by `createObstacle`, relative to the
group: a single wall at `x = 0` for `WALL`; for `DOUBLE_WALL`, one wall
per blocked lane at `lanes[blockedLane] - lanes[this.lane]`. -/
def buildWallRelX (otype : ObstacleType) (lane : ℕ) : List ℚ :=
  match otype with
  | .WALL => [0]
  | .DOUBLE_WALL => (blockedLanes lane).map (fun b => lanesQ b - lanesQ lane)

/-- The `Obstacle` constructor: record the lane and type, build the
walls from them, and place the group at `lanes[lane]`. -/
def mkObstacle (otype : ObstacleType) (lane : ℕ) (startZ : ℚ) : ObstacleObj :=
  { lane := lane, otype := otype, meshX := lanesQ lane,
    wallRelX := buildWallRelX otype lane, z := startZ, active := true }

/-- `Obstacle.reset(lane, startZ, type)`: update lane and position;
rebuild the wall meshes only when the type changed, using the new lane;
reactivate. -/
def ObstacleObj.reset (o : ObstacleObj) (lane : ℕ) (startZ : ℚ)
    (otype : ObstacleType) : ObstacleObj :=
  let walls := if otype ≠ o.otype then buildWallRelX otype lane else o.wallRelX
  { o with lane := lane, otype := otype, meshX := lanesQ lane,
           wallRelX := walls, z := startZ, active := true }

/-- The absolute x-positions of an obstacle's walls. -/
def ObstacleObj.wallAbsX (o : ObstacleObj) : List ℚ :=
  o.wallRelX.map (fun r => o.meshX + r)

/-! ## Helper lemmas -/

lemma update_currentLane (b : HoverBoard) (dt : ℚ) :
    (b.update dt).currentLane = b.currentLane := by
  simp only [HoverBoard.update, HoverBoard.updateLateral, HoverBoard.updateForward,
    HoverBoard.updateCooldown]
  split_ifs <;> rfl

lemma update_isMoving (b : HoverBoard) (dt : ℚ) :
    (b.update dt).isMoving = b.isMoving := by
  simp only [HoverBoard.update, HoverBoard.updateLateral, HoverBoard.updateForward,
    HoverBoard.updateCooldown]
  split_ifs <;> rfl

lemma update_speed (b : HoverBoard) (dt : ℚ) :
    (b.update dt).speed = b.speed := by
  simp only [HoverBoard.update, HoverBoard.updateLateral, HoverBoard.updateForward,
    HoverBoard.updateCooldown]
  split_ifs <;> rfl

lemma update_posZ (b : HoverBoard) (dt : ℚ) :
    (b.update dt).posZ
      = if b.isMoving = true then b.posZ - b.speed * dt else b.posZ := by
  simp only [HoverBoard.update, HoverBoard.updateLateral, HoverBoard.updateForward,
    HoverBoard.updateCooldown]
  split_ifs <;> rfl

lemma update_moveCooldown (b : HoverBoard) (dt : ℚ) :
    (b.update dt).moveCooldown
      = if b.moveCooldown > 0 then b.moveCooldown - dt else b.moveCooldown := by
  simp only [HoverBoard.update, HoverBoard.updateLateral, HoverBoard.updateForward,
    HoverBoard.updateCooldown]
  split_ifs <;> rfl

lemma retireObstacles_score (obs : List SceneObstacle) (s : ℤ) :
    (retireObstacles obs s).2
      = s + 10 * (obs.countP (fun o => o.isPastPlayer)) := by
  induction obs with
  | nil => simp [retireObstacles]
  | cons o rest ih =>
      simp only [retireObstacles, List.countP_cons]
      by_cases h : o.isPastPlayer = true
      · simp [h, ih]; ring
      · simp [h, ih]

lemma moveLeft_accept (b : HoverBoard) (h1 : b.isMoving = true)
    (h2 : b.currentLane ≠ 0) (h3 : ¬ b.moveCooldown > 0) :
    b.moveLeft = { b with currentLane := b.currentLane - 1,
                          targetX := lanesQ (b.currentLane - 1),
                          moveCooldown := moveCooldownDuration } := by
  rw [HoverBoard.moveLeft, if_neg]
  push_neg
  exact ⟨by simp [h1], h2, le_of_not_lt h3⟩

lemma moveRight_accept (b : HoverBoard) (h1 : b.isMoving = true)
    (h2 : b.currentLane ≠ 2) (h3 : ¬ b.moveCooldown > 0) :
    b.moveRight = { b with currentLane := b.currentLane + 1,
                           targetX := lanesQ (b.currentLane + 1),
                           moveCooldown := moveCooldownDuration } := by
  rw [HoverBoard.moveRight, if_neg]
  push_neg
  exact ⟨by simp [h1], h2, le_of_not_lt h3⟩

/-! ## Claims -/

/-- C1: the final score is `floor(distance) + obstacleAvoidancePoints +
crystalCount * 50`; each obstacle retired (avoided) past the player
contributes exactly 10 points to the avoidance component, each crystal
collection raises the final score by exactly 50, and the scripted
scenario (distance 123.7, 2 obstacles avoided hence avoidance score 20,
3 crystals) yields final score 293. -/
theorem C1_final_score_formula :
    (∀ (obs : List SceneObstacle) (s : ℤ),
        (retireObstacles obs s).2
          = s + 10 * (obs.countP (fun o => o.isPastPlayer)))
    ∧ (∀ st : Store,
        finalScore (handleCrystalCollection st) = finalScore st + 50)
    ∧ finalScore
        { gameState := .gameOver, distance := 1237 / 10, score := 20,
          highScore := 0, speed := 5, crystalCount := 3 } = 293 := by
  refine ⟨retireObstacles_score, ?_, ?_⟩
  · intro st
    simp [finalScore, handleCrystalCollection]
    ring
  · norm_num [finalScore]

/-- C6: a move command is rejected, leaving the whole player state (in
particular target lane and lateral target) unchanged, while the
move-cooldown timer is still positive; `moveLeft()` at lane 0 and
`moveRight()` at lane 2 are no-ops; and the lane index stays in
`{0,1,2}` under both commands. -/
theorem C6_move_rejection_and_lane_range (b : HoverBoard) :
    (b.moveCooldown > 0 → b.moveLeft = b ∧ b.moveRight = b)
    ∧ (b.currentLane = 0 → b.moveLeft = b)
    ∧ (b.currentLane = 2 → b.moveRight = b)
    ∧ (b.currentLane < 3 →
        b.moveLeft.currentLane < 3 ∧ b.moveRight.currentLane < 3) := by
  refine ⟨fun hc => ⟨?_, ?_⟩, fun h0 => ?_, fun h2 => ?_, fun hlt => ⟨?_, ?_⟩⟩
  · simp [HoverBoard.moveLeft, hc]
  · simp [HoverBoard.moveRight, hc]
  · simp [HoverBoard.moveLeft, h0]
  · simp [HoverBoard.moveRight, h2]
  · rw [HoverBoard.moveLeft]
    split_ifs with h
    · exact hlt
    · simp only []
      omega
  · rw [HoverBoard.moveRight]
    split_ifs with h
    · exact hlt
    · simp only []
      push_neg at h
      omega

lemma checkObstacleLoop_hit (s : SceneFlags) (box : Box3)
    (l : List SceneObstacle)
    (h : ∃ o ∈ l, o.active = true ∧ box.intersects o.box = true) :
    checkObstacleLoop s box l = (handleObstacleCollision s, 1) := by
  induction l with
  | nil => simp at h
  | cons o rest ih =>
      by_cases hc : o.active = true ∧ box.intersects o.box = true
      · simp [checkObstacleLoop, hc]
      · rw [checkObstacleLoop, if_neg hc]
        apply ih
        rcases h with ⟨o2, ho2, hprop⟩
        rcases List.mem_cons.mp ho2 with rfl | hmem
        · exact absurd hprop hc
        · exact ⟨o2, hmem, hprop⟩

lemma checkObstacleLoop_count_le (s : SceneFlags) (box : Box3)
    (l : List SceneObstacle) : (checkObstacleLoop s box l).2 ≤ 1 := by
  induction l with
  | nil => simp [checkObstacleLoop]
  | cons o rest ih =>
      rw [checkObstacleLoop]
      split_ifs
      · simp
      · exact ih

/-- C2: on a playing tick in which the player's bounding box intersects
at least one active obstacle inside the collision window, the obstacle
loop of `checkCollisions` runs `handleObstacleCollision` exactly once —
it stops at the first intersecting obstacle — leaving the session in
`gameOver` (and the handler never runs more than once on any tick). -/
theorem C2_collision_transitions_once (s : SceneFlags) (box : Box3)
    (obs : List SceneObstacle) (hp : s.gameState = .playing)
    (h : ∃ o ∈ obs, inCollisionWindow o.z = true ∧ o.active = true
          ∧ box.intersects o.box = true) :
    (checkCollisionsObstacles s box obs).1.gameState = .gameOver
    ∧ (checkCollisionsObstacles s box obs).2 = 1
    ∧ ∀ obs2 : List SceneObstacle,
        (checkCollisionsObstacles s box obs2).2 ≤ 1 := by
  have hloop := checkObstacleLoop_hit s box
    (obs.filter (fun o => inCollisionWindow o.z))
    (by
      rcases h with ⟨o, ho, hw, ha, hi⟩
      exact ⟨o, List.mem_filter.mpr ⟨ho, hw⟩, ha, hi⟩)
  have hng : ¬ s.gameState ≠ GameState.playing := by simp [hp]
  refine ⟨?_, ?_, ?_⟩
  · rw [checkCollisionsObstacles, if_neg hng, hloop]; rfl
  · rw [checkCollisionsObstacles, if_neg hng, hloop]
  · intro obs2
    rw [checkCollisionsObstacles]
    by_cases hgs : s.gameState ≠ GameState.playing
    · rw [if_pos hgs]; exact Nat.zero_le 1
    · rw [if_neg hgs]; exact checkObstacleLoop_count_le _ _ _

/-- C2 witness: a playing scene whose hoverboard box overlaps a single
active in-window obstacle ends the tick in `gameOver` with the handler
having run exactly once. -/
theorem C2_collision_transitions_once_witness :
    (checkCollisionsObstacles ⟨.playing, true, true⟩ ⟨0, 0, 0, 1, 1, 1⟩
        [⟨1, 0, true, ⟨0, 0, 0, 1, 1, 1⟩⟩]).1.gameState = .gameOver
    ∧ (checkCollisionsObstacles ⟨.playing, true, true⟩ ⟨0, 0, 0, 1, 1, 1⟩
        [⟨1, 0, true, ⟨0, 0, 0, 1, 1, 1⟩⟩]).2 = 1 :=
  ⟨(C2_collision_transitions_once _ _ _ rfl
      ⟨_, List.mem_singleton.mpr rfl, by norm_num [inCollisionWindow], rfl,
        by norm_num [Box3.intersects]⟩).1,
   (C2_collision_transitions_once _ _ _ rfl
      ⟨_, List.mem_singleton.mpr rfl, by norm_num [inCollisionWindow], rfl,
        by norm_num [Box3.intersects]⟩).2.1⟩

/-- C3: the restart command (`restartGame`, wired to the game-over
screen's restart button) resets the session but performs no high-score
comparison at all: with a final score of 100 against a stored high
score of 50, the stored high score is still 50 after restart.  The
comparison the claim describes exists only in the store helpers
`resetGame`/`gameOver` (which would have stored 100), and those helpers
are never invoked by the wired game. -/
theorem C3_restart_skips_highscore_update :
    finalScore { gameState := .gameOver, distance := 100, score := 0,
                 highScore := 50, speed := 5, crystalCount := 0 } = 100
    ∧ (restartGame { gameState := .gameOver, distance := 100, score := 0,
                     highScore := 50, speed := 5, crystalCount := 0 }).highScore
        = 50
    ∧ (resetGameHelper { gameState := .gameOver, distance := 100, score := 0,
                         highScore := 50, speed := 5,
                         crystalCount := 0 }).highScore = 100 := by
  refine ⟨by norm_num [finalScore], rfl, ?_⟩
  norm_num [resetGameHelper, updateHighScore, finalScore]

/-- C4 counterexample: after one playing tick the distance is 12, but
right after the game-over transition (`stopMoving`) `getDistance()`
returns 0 rather than staying at the value 12 it had at the
transition. -/
theorem C4_frozen_distance_counterexample :
    ((HoverBoard.init.startMoving).update 1).getDistance = 12
    ∧ (((HoverBoard.init.startMoving).update 1).stopMoving).getDistance = 0
    ∧ (((HoverBoard.init.startMoving).update 1).stopMoving).getDistance
        ≠ ((HoverBoard.init.startMoving).update 1).getDistance := by
  have hmov : (HoverBoard.init.startMoving).isMoving = true := rfl
  have h1 : ((HoverBoard.init.startMoving).update 1).getDistance = 12 := by
    rw [HoverBoard.getDistance, update_isMoving, hmov,
      if_neg (by simp), update_posZ, if_pos hmov]
    norm_num [HoverBoard.startMoving, HoverBoard.init]
  have h2 :
      (((HoverBoard.init.startMoving).update 1).stopMoving).getDistance = 0 := by
    simp [HoverBoard.getDistance, HoverBoard.stopMoving]
  refine ⟨h1, h2, ?_⟩
  rw [h1, h2]
  norm_num

/-- C4 (amended): while moving (`playing`), `getDistance()` is
monotonically non-decreasing across ticks (given a non-negative delta
and speed, and the invariant `position.z ≤ 5` which holds from
`startMoving` on); while stopped (`gameOver` or `idle`),
`getDistance()` returns 0 — not the value held at the transition. -/
theorem C4_distance_monotone_playing_zero_stopped :
    (∀ (b : HoverBoard) (dt : ℚ), b.isMoving = true → 0 ≤ dt →
        0 ≤ b.speed → b.posZ ≤ 5 →
        b.getDistance ≤ (b.update dt).getDistance ∧ (b.update dt).posZ ≤ 5)
    ∧ (∀ b : HoverBoard, b.isMoving = false → b.getDistance = 0) := by
  constructor
  · intro b dt hm hdt hs hz
    have hmul : 0 ≤ b.speed * dt := mul_nonneg hs hdt
    have hz2 : (b.update dt).posZ = b.posZ - b.speed * dt := by
      rw [update_posZ, if_pos hm]
    constructor
    · rw [HoverBoard.getDistance, HoverBoard.getDistance, update_isMoving,
        hm, hz2]
      simp only [Bool.true_eq_false, if_false]
      rw [abs_of_nonpos (by linarith), abs_of_nonpos (by linarith)]
      linarith
    · rw [hz2]; linarith
  · intro b hb
    simp [HoverBoard.getDistance, hb]

/-- C4 witness: one concrete playing tick from `startMoving` does not
decrease the distance, and the freshly constructed (idle) board reports
distance 0. -/
theorem C4_distance_monotone_witness :
    ((HoverBoard.init.startMoving).getDistance
        ≤ ((HoverBoard.init.startMoving).update 1).getDistance)
    ∧ HoverBoard.init.getDistance = 0 :=
  ⟨(C4_distance_monotone_playing_zero_stopped.1 (HoverBoard.init.startMoving) 1
      rfl (by norm_num) (by norm_num [HoverBoard.startMoving, HoverBoard.init])
      (by norm_num [HoverBoard.startMoving, HoverBoard.init])).1,
   C4_distance_monotone_playing_zero_stopped.2 HoverBoard.init rfl⟩

/-- C5 counterexample: with the player moving and target lane 0 (and
the cooldown elapsed between commands), `moveLeft()` is a no-op sending
nothing left, and the following `moveRight()` moves the target lane to
1 — the sequence does not return the target lane to 0. -/
theorem C5_left_right_roundtrip_counterexample :
    (((HoverBoard.init.startMoving).moveLeft).update (3 / 10)).currentLane = 0
    ∧ (((((((HoverBoard.init.startMoving).moveLeft).update (3 / 10)).moveLeft).update
          (3 / 10)).moveRight)).currentLane = 1 := by
  have hacc := moveLeft_accept (HoverBoard.init.startMoving) rfl (by decide)
    (by rw [show (HoverBoard.init.startMoving).moveCooldown = 0 from rfl]; norm_num)
  have hbu0 :
      (((HoverBoard.init.startMoving).moveLeft).update (3 / 10)).currentLane = 0 := by
    rw [update_currentLane, hacc]; rfl
  refine ⟨hbu0, ?_⟩
  have hnoop :
      ((((HoverBoard.init.startMoving).moveLeft).update (3 / 10)).moveLeft)
        = (((HoverBoard.init.startMoving).moveLeft).update (3 / 10)) := by
    rw [HoverBoard.moveLeft, if_pos (Or.inr (Or.inl hbu0))]
  rw [hnoop]
  have hm2 :
      ((((HoverBoard.init.startMoving).moveLeft).update (3 / 10)).update
          (3 / 10)).isMoving = true := by
    rw [update_isMoving, update_isMoving, hacc]; rfl
  have hlane2 :
      ((((HoverBoard.init.startMoving).moveLeft).update (3 / 10)).update
          (3 / 10)).currentLane = 0 := by
    rw [update_currentLane]; exact hbu0
  have hbucd :
      (((HoverBoard.init.startMoving).moveLeft).update (3 / 10)).moveCooldown
        = moveCooldownDuration - 3 / 10 := by
    rw [update_moveCooldown, hacc, if_pos (by norm_num [moveCooldownDuration])]
  have h1 : ¬ (((HoverBoard.init.startMoving).moveLeft).update
      (3 / 10)).moveCooldown > 0 := by
    rw [hbucd]; norm_num [moveCooldownDuration]
  have hcd2 :
      ¬ ((((HoverBoard.init.startMoving).moveLeft).update (3 / 10)).update
          (3 / 10)).moveCooldown > 0 := by
    rw [update_moveCooldown, if_neg h1]; exact h1
  rw [moveRight_accept _ hm2 (by rw [hlane2]; omega) hcd2]
  show ((((HoverBoard.init.startMoving).moveLeft).update (3 / 10)).update
      (3 / 10)).currentLane + 1 = 1
  rw [hlane2]

/-- C5 (amended): for target lanes L ∈ {1,2} with the player moving and
the cooldown elapsed between the calls, `moveLeft()` then `moveRight()`
returns the target lane to L; for L = 0, `moveLeft()` is a no-op and
the subsequent `moveRight()` moves the target lane to 1. -/
theorem C5_left_right_roundtrip (b : HoverBoard) (dt : ℚ)
    (hm : b.isMoving = true) (hcd : b.moveCooldown ≤ 0)
    (hdt : moveCooldownDuration ≤ dt) :
    (1 ≤ b.currentLane → b.currentLane ≤ 2 →
        (((b.moveLeft).update dt).moveRight).currentLane = b.currentLane)
    ∧ (b.currentLane = 0 →
        b.moveLeft = b
        ∧ (((b.moveLeft).update dt).moveRight).currentLane = 1) := by
  have hdur : (0 : ℚ) < moveCooldownDuration := by
    norm_num [moveCooldownDuration]
  constructor
  · intro hge hle
    rw [moveLeft_accept b hm (by omega) (by linarith)]
    set bl : HoverBoard :=
      { b with currentLane := b.currentLane - 1,
               targetX := lanesQ (b.currentLane - 1),
               moveCooldown := moveCooldownDuration } with hbl
    have hu1 : ((bl.update dt)).isMoving = true := by
      rw [update_isMoving]; exact hm
    have hu2 : ((bl.update dt)).currentLane = b.currentLane - 1 := by
      rw [update_currentLane]
    have hu3 : ¬ ((bl.update dt)).moveCooldown > 0 := by
      rw [update_moveCooldown]
      have : bl.moveCooldown = moveCooldownDuration := rfl
      rw [this, if_pos hdur]
      linarith
    rw [moveRight_accept _ hu1 (by omega) hu3]
    show (bl.update dt).currentLane + 1 = b.currentLane
    omega
  · intro h0
    have hnoop : b.moveLeft = b := by
      rw [HoverBoard.moveLeft, if_pos (Or.inr (Or.inl h0))]
    refine ⟨hnoop, ?_⟩
    rw [hnoop]
    have hu1 : ((b.update dt)).isMoving = true := by
      rw [update_isMoving]; exact hm
    have hu2 : ((b.update dt)).currentLane = 0 := by
      rw [update_currentLane]; exact h0
    have hu3 : ¬ ((b.update dt)).moveCooldown > 0 := by
      rw [update_moveCooldown, if_neg (by linarith)]
      linarith
    rw [moveRight_accept _ hu1 (by omega) hu3]
    show (b.update dt).currentLane + 1 = 1
    omega

/-- C5 witness: from `startMoving` (target lane 1, cooldown clear),
`moveLeft()` then — after a 0.2 s tick — `moveRight()` puts the target
lane back at 1. -/
theorem C5_left_right_roundtrip_witness :
    ((((HoverBoard.init.startMoving).moveLeft).update (1 / 5)).moveRight).currentLane
      = (HoverBoard.init.startMoving).currentLane :=
  (C5_left_right_roundtrip (HoverBoard.init.startMoving) (1 / 5) rfl
      (by norm_num [HoverBoard.startMoving, HoverBoard.init])
      (by norm_num [moveCooldownDuration])).1 (by decide) (by decide)

lemma applyPoolOp_length (pool : List SceneObstacle) (op : PoolOp) :
    (applyPoolOp pool op).length = pool.length := by
  cases op with
  | spawn lane z =>
      simp only [applyPoolOp]
      cases h : getObstacleFromPool pool <;> simp [h]
  | release i =>
      simp only [applyPoolOp]
      cases h : pool.get? i <;> simp [h]

lemma applyPoolOps_length (ops : List PoolOp) (pool : List SceneObstacle) :
    (applyPoolOps ops pool).length = pool.length := by
  induction ops generalizing pool with
  | nil => rfl
  | cons op rest ih =>
      show (applyPoolOps rest (applyPoolOp pool op)).length = pool.length
      rw [ih, applyPoolOp_length]

lemma applyCrystalPoolOp_length (pool : List SceneCrystal) (op : PoolOp) :
    (applyCrystalPoolOp pool op).length = pool.length := by
  cases op with
  | spawn lane z =>
      simp only [applyCrystalPoolOp]
      cases h : getCrystalFromPool pool <;> simp [h]
  | release i =>
      simp only [applyCrystalPoolOp]
      cases h : pool.get? i <;> simp [h]

lemma applyCrystalPoolOps_length (ops : List PoolOp) (pool : List SceneCrystal) :
    (applyCrystalPoolOps ops pool).length = pool.length := by
  induction ops generalizing pool with
  | nil => rfl
  | cons op rest ih =>
      show (applyCrystalPoolOps rest (applyCrystalPoolOp pool op)).length
        = pool.length
      rw [ih, applyCrystalPoolOp_length]

/-- C7: after any sequence of spawn/release operations on the pools
created by `initializeObstaclePool` / `initializeCrystalPool`, the
number of active obstacles is at most the pool capacity 15 and the
number of active crystals at most 8 (the pools never grow); acquiring
returns the first inactive slot of the pool, and when every slot is
active it signals exhaustion, in which case the spawn leaves the pool
untouched. -/
theorem C7_pool_capacity_invariant :
    (∀ ops : List PoolOp,
        countActiveObstacles (applyPoolOps ops initObstaclePool)
            ≤ obstaclePoolSize
        ∧ (applyPoolOps ops initObstaclePool).length = obstaclePoolSize)
    ∧ (∀ ops : List PoolOp,
        countActiveCrystals (applyCrystalPoolOps ops initCrystalPool)
            ≤ crystalPoolSize
        ∧ (applyCrystalPoolOps ops initCrystalPool).length = crystalPoolSize)
    ∧ (∀ (pool : List SceneObstacle) (i : ℕ),
        getObstacleFromPool pool = some i →
          ∃ h : i < pool.length,
            (pool.get ⟨i, h⟩).active = false
            ∧ ∀ (j : ℕ) (hj : j < i),
                (pool.get ⟨j, lt_trans hj h⟩).active = true)
    ∧ (∀ pool : List SceneObstacle, getObstacleFromPool pool = none →
        ∀ o ∈ pool, o.active = true)
    ∧ (∀ (pool : List SceneObstacle) (lane : ℕ) (z : ℚ),
        getObstacleFromPool pool = none →
          applyPoolOp pool (.spawn lane z) = pool) := by
  refine ⟨?_, ?_, ?_, ?_, ?_⟩
  · intro ops
    have hlen := applyPoolOps_length ops initObstaclePool
    have hinit : initObstaclePool.length = obstaclePoolSize := by
      simp [initObstaclePool]
    rw [hinit] at hlen
    exact ⟨le_trans (List.countP_le_length _) (le_of_eq hlen), hlen⟩
  · intro ops
    have hlen := applyCrystalPoolOps_length ops initCrystalPool
    have hinit : initCrystalPool.length = crystalPoolSize := by
      simp [initCrystalPool]
    rw [hinit] at hlen
    exact ⟨le_trans (List.countP_le_length _) (le_of_eq hlen), hlen⟩
  · intro pool i h
    rw [getObstacleFromPool, List.findIdx?_eq_some_iff_getElem] at h
    rcases h with ⟨hlen, hp, hbefore⟩
    refine ⟨hlen, ?_, ?_⟩
    · simpa [List.get_eq_getElem] using hp
    · intro j hj
      have := hbefore j hj
      simpa [List.get_eq_getElem] using this
  · intro pool h o ho
    rw [getObstacleFromPool, List.findIdx?_eq_none_iff] at h
    simpa using h o ho
  · intro pool lane z h
    simp [applyPoolOp, h]

/-- C7 witness: the empty operation sequence respects the capacity
bound, and a spawn against a fully active single-slot pool is a no-op. -/
theorem C7_pool_capacity_invariant_witness :
    countActiveObstacles (applyPoolOps [] initObstaclePool) ≤ obstaclePoolSize
    ∧ applyPoolOp [⟨1, -200, true, ⟨0, 0, 0, 0, 0, 0⟩⟩] (.spawn 0 0)
        = [⟨1, -200, true, ⟨0, 0, 0, 0, 0, 0⟩⟩] :=
  ⟨(C7_pool_capacity_invariant.1 []).1,
   C7_pool_capacity_invariant.2.2.2.2 [⟨1, -200, true, ⟨0, 0, 0, 0, 0, 0⟩⟩] 0 0
     rfl⟩

/-- C8 counterexample: with active obstacles in both lane 0 and lane 1
inside the too-close band (z = −100), a random first pick of lane 0
with cyclic shift 0 lands the spawn in lane 1, which still violates the
same-lane spacing rule — the shifted lane is never re-checked. -/
theorem C8_spawn_lane_spacing_counterexample :
    chooseObstacleLane
        [⟨0, -100, true, ⟨0, 0, 0, 0, 0, 0⟩⟩,
         ⟨1, -100, true, ⟨0, 0, 0, 0, 0, 0⟩⟩] 0 0 = 1
    ∧ tooCloseObstacle
        [⟨0, -100, true, ⟨0, 0, 0, 0, 0, 0⟩⟩,
         ⟨1, -100, true, ⟨0, 0, 0, 0, 0, 0⟩⟩] 1 = true := by
  refine ⟨?_, ?_⟩ <;> decide

/-- C8 (amended): the spawn's single cyclic retry always moves a
conflicted first pick to a different lane, so whenever at most one lane
is occupied within the too-close band, the spawned obstacle never
violates the same-lane spacing rule; with two or more occupied lanes
the unchecked retry can still land on a conflict. -/
theorem C8_spawn_lane_spacing (obstacles : List SceneObstacle)
    (lane0 shift : ℕ) (h0 : lane0 < 3) (hs : shift < 2) :
    (tooCloseObstacle obstacles lane0 = true →
        chooseObstacleLane obstacles lane0 shift ≠ lane0)
    ∧ ((∀ l1 l2 : ℕ, l1 < 3 → l2 < 3 → tooCloseObstacle obstacles l1 = true →
          tooCloseObstacle obstacles l2 = true → l1 = l2) →
        tooCloseObstacle obstacles (chooseObstacleLane obstacles lane0 shift)
          = false) := by
  have hne : (lane0 + 1 + shift) % 3 ≠ lane0 := by omega
  constructor
  · intro ht
    rw [chooseObstacleLane, if_pos ht]
    exact hne
  · intro huniq
    by_cases ht : tooCloseObstacle obstacles lane0 = true
    · rw [chooseObstacleLane, if_pos ht]
      by_contra hcon
      have htrue :
          tooCloseObstacle obstacles ((lane0 + 1 + shift) % 3) = true := by
        revert hcon
        cases tooCloseObstacle obstacles ((lane0 + 1 + shift) % 3) <;> simp
      exact hne (huniq _ _ (Nat.mod_lt _ (by norm_num)) h0 htrue ht)
    · rw [chooseObstacleLane, if_neg ht]
      exact Bool.eq_false_iff.mpr ht

/-- C8 witness: with only lane 0 occupied in the band, a first pick of
lane 0 is shifted and the final lane is conflict-free. -/
theorem C8_spawn_lane_spacing_witness :
    chooseObstacleLane [⟨0, -100, true, ⟨0, 0, 0, 0, 0, 0⟩⟩] 0 0 ≠ 0
    ∧ tooCloseObstacle [⟨0, -100, true, ⟨0, 0, 0, 0, 0, 0⟩⟩]
        (chooseObstacleLane [⟨0, -100, true, ⟨0, 0, 0, 0, 0, 0⟩⟩] 0 0)
        = false :=
  ⟨(C8_spawn_lane_spacing _ 0 0 (by norm_num) (by norm_num)).1 (by decide),
   (C8_spawn_lane_spacing _ 0 0 (by norm_num) (by norm_num)).2
     (by
        intro l1 l2 h1 h2 ht1 ht2
        interval_cases l1 <;> interval_cases l2 <;> revert ht1 ht2 <;> decide)⟩

/-- C9 counterexample: with an active obstacle in lane 1 inside the
too-close band (z = −100), spawning the straight-line crystal pattern
with base lane 1 places all three crystals in that exact lane — crystal
spawning performs no spacing check against obstacles (nor crystals). -/
theorem C9_crystal_spacing_counterexample :
    ((spawnCrystal 0 1 (initCrystalPool, [])).2).map SceneCrystal.lane
      = [1, 1, 1]
    ∧ tooCloseObstacle [⟨1, -100, true, ⟨0, 0, 0, 0, 0, 0⟩⟩] 1 = true := by
  refine ⟨?_, ?_⟩ <;> decide

/-- C9 (amended): crystal spawning enforces no lane spacing at all
(against neither crystals nor obstacles): each pattern point is placed
at lane `(baseLane + laneOffset) mod 3`, determined solely by the base
lane and the pattern, regardless of any active entity; only obstacle
spawning checks the too-close rule and only against obstacles. -/
theorem C9_crystal_spawn_lanes (patternType baseLane : ℕ)
    (hb : baseLane < 3) :
    ((spawnCrystal patternType baseLane (initCrystalPool, [])).2).map
        SceneCrystal.lane
      = (crystalPattern patternType).map
          (fun pt => wrapLane ((baseLane : ℤ) + pt.1)) := by
  by_cases h0 : patternType = 0
  · subst h0
    interval_cases baseLane <;> decide
  by_cases h1 : patternType = 1
  · subst h1
    interval_cases baseLane <;> decide
  · simp only [spawnCrystal, crystalPattern, if_neg h0, if_neg h1]
    interval_cases baseLane <;> decide

/-- C9 witness: the zigzag pattern from base lane 2 is placed at the
offset-computed lanes. -/
theorem C9_crystal_spawn_lanes_witness :
    ((spawnCrystal 1 2 (initCrystalPool, [])).2).map SceneCrystal.lane
      = (crystalPattern 1).map (fun pt => wrapLane ((2 : ℤ) + pt.1)) :=
  C9_crystal_spawn_lanes 1 2 (by norm_num)

/-- C10: for every lane L ∈ {0,1,2}, a DOUBLE_WALL obstacle's two wall
sub-positions sit exactly at the lateral offsets of the two lanes
different from L — the stored lane denotes the single open lane — both
at construction and after a `reset` that changes the obstacle's type to
DOUBLE_WALL (which rebuilds the walls from the new lane). -/
theorem C10_double_wall_blocks_other_lanes (L : ℕ) (hL : L < 3)
    (z z2 : ℚ) (o : ObstacleObj) (ho : o.otype ≠ .DOUBLE_WALL) :
    (mkObstacle .DOUBLE_WALL L z).wallAbsX = (blockedLanes L).map lanesQ
    ∧ blockedLanes L = (List.range 3).filter (fun l => l ≠ L)
    ∧ (o.reset L z2 .DOUBLE_WALL).wallAbsX = (blockedLanes L).map lanesQ := by
  have habs : ∀ lanes0 : List ℕ,
      (lanes0.map (fun b => lanesQ b - lanesQ L)).map (fun r => lanesQ L + r)
        = lanes0.map lanesQ := by
    intro lanes0
    rw [List.map_map]
    apply List.map_congr_left
    intro b _
    simp
  refine ⟨?_, ?_, ?_⟩
  · simp only [ObstacleObj.wallAbsX, mkObstacle, buildWallRelX]
    exact habs (blockedLanes L)
  · interval_cases L <;> decide
  · have hcond : ObstacleType.DOUBLE_WALL ≠ o.otype := Ne.symm ho
    simp only [ObstacleObj.wallAbsX, ObstacleObj.reset, if_pos hcond,
      buildWallRelX]
    exact habs (blockedLanes L)

/-- C10 witness: a WALL obstacle reset to a DOUBLE_WALL at lane 0
blocks exactly lanes 1 and 2, as does a freshly constructed one. -/
theorem C10_double_wall_blocks_other_lanes_witness :
    (mkObstacle .DOUBLE_WALL 0 (-140)).wallAbsX = (blockedLanes 0).map lanesQ
    ∧ ((mkObstacle .WALL 1 (-200)).reset 0 (-140) .DOUBLE_WALL).wallAbsX
        = (blockedLanes 0).map lanesQ :=
  ⟨(C10_double_wall_blocks_other_lanes 0 (by norm_num) (-140) (-140)
      (mkObstacle .WALL 1 (-200)) (by decide)).1,
   (C10_double_wall_blocks_other_lanes 0 (by norm_num) (-140) (-140)
      (mkObstacle .WALL 1 (-200)) (by decide)).2.2⟩

/-- C6 witness: a board with an active cooldown at lane 0 rejects both
commands, and a lane-2 board rejects `moveRight`; lanes stay below 3. -/
theorem C6_move_rejection_and_lane_range_witness :
    (HoverBoard.mk 0 5 0 12 true 0 1).moveLeft = HoverBoard.mk 0 5 0 12 true 0 1
    ∧ (HoverBoard.mk 0 5 0 12 true 0 1).moveRight
        = HoverBoard.mk 0 5 0 12 true 0 1
    ∧ (HoverBoard.mk 0 5 0 12 true 2 0).moveRight
        = HoverBoard.mk 0 5 0 12 true 2 0
    ∧ (HoverBoard.mk 0 5 0 12 true 2 0).moveLeft.currentLane < 3 := by
  refine ⟨?_, ?_, ?_, ?_⟩
  · exact ((C6_move_rejection_and_lane_range _).1 (by norm_num)).1
  · exact ((C6_move_rejection_and_lane_range _).1 (by norm_num)).2
  · exact (C6_move_rejection_and_lane_range _).2.2.1 rfl
  · exact ((C6_move_rejection_and_lane_range _).2.2.2 (by norm_num)).1

end VibeRiders
